import Mathlib

/-!
Verification of `linuxfs.py` — a pure-Python wrapper around Linux-specific
filesystem facilities (ioctl request-code encoding, fsxattr get/set, openat2
secure open, anonymous-tmpfile publishing).

The Python source is shallowly embedded: pure bit arithmetic becomes Nat
arithmetic; functions that issue syscalls are modelled with an explicit
syscall oracle parameter and return the list of syscalls actually issued
together with an `Except`-style outcome (a Python exception or a value).
-/

/-- A Python exception as surfaced by the module: `TypeError` for argument
errors raised locally, `OSError` carrying the errno for failed syscalls,
`NameError` for an undefined global name. -/
inductive PyErr where
  | typeError (msg : String)
  | osError (errno : Nat)
  | nameError (name : String)
deriving DecidableEq, Repr

deriving instance DecidableEq for Except

/-- `True` iff the outcome is a Python `TypeError` (the module's argument
error). -/
def isTypeError {α : Type} : Except PyErr α → Prop
  | .error (.typeError _) => True
  | _ => False

instance {α : Type} (e : Except PyErr α) : Decidable (isTypeError e) := by
  unfold isTypeError
  cases e with
  | error pe => cases pe <;> simp <;> infer_instance
  | ok _ => infer_instance

namespace _IOC

/-! Constants from `class _IOC` (src/linuxfs.py lines 100-135), which mirror
`asm-generic/ioctl.h`. -/

def NRBITS : Nat := 8
def TYPEBITS : Nat := 8
def SIZEBITS : Nat := 14
def DIRBITS : Nat := 2

def NRMASK : Nat := (1 <<< NRBITS) - 1
def TYPEMASK : Nat := (1 <<< TYPEBITS) - 1
def SIZEMASK : Nat := (1 <<< SIZEBITS) - 1
def DIRMASK : Nat := (1 <<< DIRBITS) - 1

def NRSHIFT : Nat := 0
def TYPESHIFT : Nat := NRSHIFT + NRBITS
def SIZESHIFT : Nat := TYPESHIFT + TYPEBITS
def DIRSHIFT : Nat := SIZESHIFT + SIZEBITS

def NONE : Nat := 0
def WRITE : Nat := 1
def READ : Nat := 2

/-- The `type` argument of `_IOC.IOC`: either an integer byte value or a
single character (Python `str`), per the `isinstance(type, str)` dispatch. -/
inductive TypeArg where
  | int (n : Nat)
  | str (c : Char)

/-- The `(lambda : type, lambda : ord(type))[isinstance(type, str)]()`
dispatch inside `_IOC.IOC`. -/
def typeOrd : TypeArg → Nat
  | .int n => n
  | .str c => c.toNat

/-- `_IOC.IOC` (src/linuxfs.py lines 136-150):
`dir << DIRSHIFT | ord-or-value(type) << TYPESHIFT | nr << NRSHIFT | size << SIZESHIFT`. -/
def IOC (dir : Nat) (type : TypeArg) (nr size : Nat) : Nat :=
  dir <<< DIRSHIFT ||| typeOrd type <<< TYPESHIFT ||| nr <<< NRSHIFT ||| size <<< SIZESHIFT

/-- `_IOC.DIR` decoder: `nr >> DIRSHIFT & DIRMASK`. -/
def DIR (nr : Nat) : Nat := nr >>> DIRSHIFT &&& DIRMASK

/-- `_IOC.TYPE` decoder: `nr >> TYPESHIFT & TYPEMASK`. -/
def TYPE (nr : Nat) : Nat := nr >>> TYPESHIFT &&& TYPEMASK

/-- `_IOC.NR` decoder: `nr >> NRSHIFT & NRMASK`. -/
def NR (nr : Nat) : Nat := nr >>> NRSHIFT &&& NRMASK

/-- `_IOC.SIZE` decoder: `nr >> SIZESHIFT & SIZEMASK`. -/
def SIZE (nr : Nat) : Nat := nr >>> SIZESHIFT &&& SIZEMASK

/-- The size argument of the `IOR`/`IOW`/`IOWR` wrappers: either an integer
byte count or a ctypes type descriptor whose size `ct.sizeof` measures.
Only the descriptors the catalogue uses are modelled, with their sizes on
the 64-bit build the module targets. -/
inductive SizeArg where
  | int (n : Nat)
  | c_long
  | c_int
  | xattrStruct
  | charArray (n : Nat)

/-- `ct.sizeof` for the modelled ctypes descriptors: `c_long` is 8 bytes on
a 64-bit build, `c_int` is 4, `FS.xattr` is five `c_uint32` fields plus an
8-byte pad = 28, a char array of `n` bytes is `n`. -/
def ctSizeof : SizeArg → Nat
  | .int n => n
  | .c_long => 8
  | .c_int => 4
  | .xattrStruct => 28
  | .charArray n => n

/-- `_IOC.TYPECHECK`: an `int` passes through, anything else is measured
with `ct.sizeof`. -/
def TYPECHECK : SizeArg → Nat
  | .int n => n
  | t => ctSizeof t

/-- `_IOC.IOR`. -/
def IOR (type : TypeArg) (nr : Nat) (size : SizeArg) : Nat :=
  IOC READ type nr (TYPECHECK size)

/-- `_IOC.IOW`. -/
def IOW (type : TypeArg) (nr : Nat) (size : SizeArg) : Nat :=
  IOC WRITE type nr (TYPECHECK size)

/-- `_IOC.IOWR`. -/
def IOWR (type : TypeArg) (nr : Nat) (size : SizeArg) : Nat :=
  IOC (READ ||| WRITE) type nr (TYPECHECK size)

end _IOC

/-- Under the field-width bounds, the bit-packed code is the plain sum of
the shifted fields (the fields do not overlap). -/
theorem _IOC.IOC_eq_sum (d t n s : Nat)
    (ht : t < 2 ^ 8) (hn : n < 2 ^ 8) (hs : s < 2 ^ 14) :
    _IOC.IOC d (.int t) n s = d * 2 ^ 30 + s * 2 ^ 16 + t * 2 ^ 8 + n := by
  have key : ∀ (i a b : Nat), b < 2 ^ i → a * 2 ^ i ||| b = a * 2 ^ i + b := by
    intro i a b hb
    rw [Nat.mul_comm]
    exact (Nat.mul_add_lt_is_or hb a).symm
  have hlt2 : t * 2 ^ 8 + n < 2 ^ 16 := by
    have e8 : (2 : Nat) ^ 8 = 256 := by norm_num
    have e16 : (2 : Nat) ^ 16 = 65536 := by norm_num
    rw [e8, e16]
    rw [e8] at ht hn
    omega
  have hlt3 : s * 2 ^ 16 + (t * 2 ^ 8 + n) < 2 ^ 30 := by
    have e8 : (2 : Nat) ^ 8 = 256 := by norm_num
    have e14 : (2 : Nat) ^ 14 = 16384 := by norm_num
    have e16 : (2 : Nat) ^ 16 = 65536 := by norm_num
    have e30 : (2 : Nat) ^ 30 = 1073741824 := by norm_num
    rw [e8, e16, e30]
    rw [e8] at ht hn
    rw [e14] at hs
    omega
  have or1 : t * 2 ^ 8 ||| n = t * 2 ^ 8 + n := key 8 t n hn
  have or2 : s * 2 ^ 16 ||| (t * 2 ^ 8 + n) = s * 2 ^ 16 + (t * 2 ^ 8 + n) :=
    key 16 s _ hlt2
  have or3 : d * 2 ^ 30 ||| (s * 2 ^ 16 + (t * 2 ^ 8 + n)) =
      d * 2 ^ 30 + (s * 2 ^ 16 + (t * 2 ^ 8 + n)) := key 30 d _ hlt3
  unfold _IOC.IOC typeOrd DIRSHIFT SIZESHIFT TYPESHIFT NRSHIFT NRBITS TYPEBITS SIZEBITS
  simp only [Nat.shiftLeft_eq, Nat.reduceAdd, pow_zero, Nat.mul_one]
  rw [Nat.or_assoc, Nat.or_assoc, ← Nat.or_assoc (t * 2 ^ 8) n (s * 2 ^ 16),
    Nat.or_comm (t * 2 ^ 8 ||| n) (s * 2 ^ 16)]
  rw [or1, or2, or3]
  ring

/-- C1: For every direction `d < 2^2`, type byte `t < 2^8`, request number
`n < 2^8` and size `s < 2^14`, the decoders recover the four fields from
the code produced by `_IOC.IOC`:
`DIR (IOC d t n s) = d`, `TYPE (...) = t`, `NR (...) = n`, `SIZE (...) = s`. -/
theorem _IOC.decode_encode (d t n s : Nat)
    (hd : d < 2 ^ 2) (ht : t < 2 ^ 8) (hn : n < 2 ^ 8) (hs : s < 2 ^ 14) :
    _IOC.DIR (_IOC.IOC d (.int t) n s) = d ∧
    _IOC.TYPE (_IOC.IOC d (.int t) n s) = t ∧
    _IOC.NR (_IOC.IOC d (.int t) n s) = n ∧
    _IOC.SIZE (_IOC.IOC d (.int t) n s) = s := by
  rw [_IOC.IOC_eq_sum d t n s ht hn hs]
  unfold _IOC.DIR _IOC.TYPE _IOC.NR _IOC.SIZE
  unfold DIRSHIFT SIZESHIFT TYPESHIFT NRSHIFT DIRMASK SIZEMASK TYPEMASK NRMASK
  unfold NRBITS TYPEBITS SIZEBITS DIRBITS
  simp only [Nat.shiftRight_eq_div_pow, Nat.shiftLeft_eq, Nat.reduceAdd, Nat.one_mul,
    Nat.and_pow_two_sub_one_eq_mod]
  norm_num at ht hn hs ⊢
  refine ⟨?_, ?_, ?_, ?_⟩ <;> omega

/-- Witness for C1 at `d = 2, t = 102 (ord 'f'), n = 1, s = 8`. -/
theorem _IOC.decode_encode_witness :
    (2 : Nat) < 2 ^ 2 ∧ (102 : Nat) < 2 ^ 8 ∧ (1 : Nat) < 2 ^ 8 ∧ (8 : Nat) < 2 ^ 14 ∧
    (_IOC.DIR (_IOC.IOC 2 (.int 102) 1 8) = 2 ∧
     _IOC.TYPE (_IOC.IOC 2 (.int 102) 1 8) = 102 ∧
     _IOC.NR (_IOC.IOC 2 (.int 102) 1 8) = 1 ∧
     _IOC.SIZE (_IOC.IOC 2 (.int 102) 1 8) = 8) :=
  ⟨by norm_num, by norm_num, by norm_num, by norm_num,
   _IOC.decode_encode 2 102 1 8 (by norm_num) (by norm_num) (by norm_num) (by norm_num)⟩

namespace FS

/-! The command catalogue from `class FS` (src/linuxfs.py lines 225-237). -/

def FSLABEL_MAX : Nat := 256

def IOC_GETFLAGS : Nat := _IOC.IOR (.str 'f') 1 .c_long
def IOC_SETFLAGS : Nat := _IOC.IOW (.str 'f') 2 .c_long
def IOC_GETVERSION : Nat := _IOC.IOR (.str 'v') 1 .c_long
def IOC_SETVERSION : Nat := _IOC.IOW (.str 'v') 2 .c_long
def IOC32_GETFLAGS : Nat := _IOC.IOR (.str 'f') 1 .c_int
def IOC32_SETFLAGS : Nat := _IOC.IOW (.str 'f') 2 .c_int
def IOC32_GETVERSION : Nat := _IOC.IOR (.str 'v') 1 .c_int
def IOC32_SETVERSION : Nat := _IOC.IOW (.str 'v') 2 .c_int
def IOC_FSGETXATTR : Nat := _IOC.IOR (.str 'X') 31 .xattrStruct
def IOC_FSSETXATTR : Nat := _IOC.IOW (.str 'X') 32 .xattrStruct
def IOC_GETFSLABEL : Nat := _IOC.IOR (.int 0x94) 49 (.int FSLABEL_MAX)
def IOC_SETFSLABEL : Nat := _IOC.IOW (.int 0x94) 50 (.int FSLABEL_MAX)

end FS

/-- The hand-computed reference layout for the claim C2:
`dir <<< 30 ||| type <<< 8 ||| nr <<< 0 ||| size <<< 16`. -/
def refCode (dir type nr size : Nat) : Nat :=
  dir <<< 30 ||| type <<< 8 ||| nr <<< 0 ||| size <<< 16

/-- C2: every catalogued command code equals its hand-computed reference
value from the bit layout `dir<<30 | type<<8 | nr<<0 | size<<16`; in
particular `FS.IOC_GETFLAGS` equals the codec applied to direction=read (2),
type=`ord 'f'` (102), number=1, size=sizeof(native long)=8 on a 64-bit
build. -/
theorem FS.catalogue_codes :
    FS.IOC_GETFLAGS = _IOC.IOC 2 (.int 102) 1 8 ∧
    FS.IOC_GETFLAGS = refCode 2 102 1 8 ∧
    FS.IOC_SETFLAGS = refCode 1 102 2 8 ∧
    FS.IOC_GETVERSION = refCode 2 118 1 8 ∧
    FS.IOC_SETVERSION = refCode 1 118 2 8 ∧
    FS.IOC32_GETFLAGS = refCode 2 102 1 4 ∧
    FS.IOC32_SETFLAGS = refCode 1 102 2 4 ∧
    FS.IOC32_GETVERSION = refCode 2 118 1 4 ∧
    FS.IOC32_SETVERSION = refCode 1 118 2 4 ∧
    FS.IOC_FSGETXATTR = refCode 2 88 31 28 ∧
    FS.IOC_FSSETXATTR = refCode 1 88 32 28 ∧
    FS.IOC_GETFSLABEL = refCode 2 0x94 49 256 ∧
    FS.IOC_SETFSLABEL = refCode 1 0x94 50 256 ∧
    FS.IOC_GETFLAGS = 0x80086601 ∧
    FS.IOC_SETFLAGS = 0x40086602 ∧
    FS.IOC_FSGETXATTR = 0x801c581f ∧
    FS.IOC_FSSETXATTR = 0x401c5820 ∧
    FS.IOC_GETFSLABEL = 0x81009431 ∧
    FS.IOC_SETFSLABEL = 0x41009432 := by
  refine ⟨?_, ?_, ?_, ?_, ?_, ?_, ?_, ?_, ?_, ?_, ?_, ?_, ?_, ?_, ?_, ?_, ?_, ?_, ?_⟩ <;>
    decide

/-! ## Higher-level operations

Each syscall-issuing operation takes a syscall oracle (standing for the
kernel) and an errno value (standing for `ct.get_errno()` after a failed
call), and returns the list of syscalls it actually issued together with
its Python-level outcome.  An `Except.error` outcome with an empty syscall
list models an exception raised before any syscall reached the kernel. -/

/-- A Python value passed as a pathname: `str`, `bytes`, `bytearray`, or
anything else. -/
inductive PyVal where
  | str (s : String)
  | bytes (b : List Nat)
  | bytearray (b : List Nat)
  | other
deriving DecidableEq, Repr

/-- UTF-8 encoding of a text string, byte by byte — the meaning of Python's
`str.encode()` with its default encoding. -/
def utf8 (s : String) : List Nat :=
  (s.data.map (fun c => String.utf8EncodeChar c)).flatten.map (fun b => b.toNat)

/-- `_get_path` (src/linuxfs.py lines 295-306): a `str` is encoded with the
default (UTF-8) encoding, `bytes`/`bytearray` pass through, anything else
raises `TypeError` locally. -/
def _get_path (pathname : PyVal) (argname : String) : Except PyErr (List Nat) :=
  match pathname with
  | .str s => .ok (utf8 s)
  | .bytes b => .ok b
  | .bytearray b => .ok b
  | .other => .error (.typeError (argname ++ " must be string or bytes"))

/-- `FS.xattr` (src/linuxfs.py lines 166-176): five `c_uint32` fields and an
8-byte pad.  A fresh `FS.xattr()` is zero-initialised. -/
structure Xattr where
  fsx_xflags : Nat := 0
  fsx_extsize : Nat := 0
  fsx_nextents : Nat := 0
  fsx_projid : Nat := 0
  fsx_cowextsize : Nat := 0
  fsx_pad : List Nat := List.replicate 8 0
deriving DecidableEq, Repr

/-- The `_fields_` list of `FS.xattr`, in declaration order. -/
def xattrFieldNames : List String :=
  ["fsx_xflags", "fsx_extsize", "fsx_nextents", "fsx_projid", "fsx_cowextsize", "fsx_pad"]

/-- `setattr` on a `FS.xattr` for the settable (`c_uint32`) fields; ctypes
truncates an assigned value to the field width. -/
def setXattrField (x : Xattr) (name : String) (v : Nat) : Xattr :=
  if name = "fsx_xflags" then { x with fsx_xflags := v % 2 ^ 32 }
  else if name = "fsx_extsize" then { x with fsx_extsize := v % 2 ^ 32 }
  else if name = "fsx_nextents" then { x with fsx_nextents := v % 2 ^ 32 }
  else if name = "fsx_projid" then { x with fsx_projid := v % 2 ^ 32 }
  else if name = "fsx_cowextsize" then { x with fsx_cowextsize := v % 2 ^ 32 }
  else x

/-- The keyword names `setfsxattr` accepts:
`set(f[0] for f in FS.xattr._fields_ if f[0] != "fsx_pad")`. -/
def setfsxattrValid : List String :=
  xattrFieldNames.filter (fun f => f ≠ "fsx_pad")

/-- The keyword loop of `setfsxattr` (src/linuxfs.py lines 371-376): walk the
keyword arguments in order, raising `TypeError` at the first name outside
the valid set, otherwise assigning the field. -/
def setfsxattrKwloop (x : Xattr) : List (String × Nat) → Except PyErr Xattr
  | [] => .ok x
  | (f, v) :: rest =>
    if f ∈ setfsxattrValid then setfsxattrKwloop (setXattrField x f v) rest
    else .error (.typeError ("invalid FS.xattr keyword " ++ f))

/-- A positional argument to `setfsxattr`: either a genuine `FS.xattr`
struct or a value of some other type. -/
inductive XattrArg where
  | xattr (x : Xattr)
  | other
deriving DecidableEq, Repr

/-- `setfsxattr` (src/linuxfs.py lines 335-379).  `sys fd x` is the result
of `libc.ioctl(fd, FS.IOC_FSSETXATTR, byref(x))`; the first component of the
result is the list of ioctl calls issued (fd together with the struct
passed). -/
def setfsxattr (fd : Nat) (args : List XattrArg) (kwargs : List (String × Nat))
    (sys : Nat → Xattr → Int) (errno : Nat) :
    List (Nat × Xattr) × Except PyErr Unit :=
  if args.length + kwargs.length = 0 then
    ([], .error (.typeError "nothing to do"))
  else if args.length > 1 then
    ([], .error (.typeError "only expecting one positional argument"))
  else
    let base : Except PyErr Xattr :=
      match args with
      | [] => .ok {}
      | .xattr x :: _ => .ok x
      | .other :: _ => .error (.typeError "positional argument is not a FS.xattr struct")
    match base with
    | .error e => ([], .error e)
    | .ok x0 =>
      if (args.length != 0) = (kwargs.length != 0) then
        ([], .error (.typeError
          "either pass a positional FS.xattr argument, or individual field values by keyword"))
      else
        match setfsxattrKwloop x0 kwargs with
        | .error e => ([], .error e)
        | .ok x =>
          let sts := sys fd x
          if sts < 0 then ([(fd, x)], .error (.osError errno))
          else ([(fd, x)], .ok ())

namespace OPENAT2

/-- `OPENAT2.open_how` (src/linuxfs.py lines 68-75): three `c_uint64`
fields, zero-initialised on construction. -/
structure open_how where
  flags : Nat := 0
  mode : Nat := 0
  resolve : Nat := 0
deriving DecidableEq, Repr

/-- The `_fields_` list of `OPENAT2.open_how`. -/
def open_how_fields : List String := ["flags", "mode", "resolve"]

/-- `setattr` on an `open_how`; ctypes truncates to the 64-bit field. -/
def setHowField (h : open_how) (name : String) (v : Nat) : open_how :=
  if name = "flags" then { h with flags := v % 2 ^ 64 }
  else if name = "mode" then { h with mode := v % 2 ^ 64 }
  else if name = "resolve" then { h with resolve := v % 2 ^ 64 }
  else h

end OPENAT2

/-- The keyword loop of `open_at` (src/linuxfs.py lines 386-392): raise
`TypeError` at the first keyword outside `open_how`'s field names,
otherwise assign the field. -/
def openAtKwloop (h : OPENAT2.open_how) :
    List (String × Nat) → Except PyErr OPENAT2.open_how
  | [] => .ok h
  | (f, v) :: rest =>
    if f ∈ OPENAT2.open_how_fields then openAtKwloop (OPENAT2.setHowField h f v) rest
    else .error (.typeError ("invalid OPENAT2 keyword " ++ f))

/-- One issued `openat2(2)` syscall: directory fd, encoded pathname bytes,
and the `open_how` struct passed by reference. -/
structure OpenAt2Call where
  dirfd : Nat
  pathname : List Nat
  how : OPENAT2.open_how
deriving DecidableEq, Repr

/-- `open_at` (src/linuxfs.py lines 381-403): build the `open_how` from the
keyword arguments, encode the pathname, issue the bound `openat2` syscall,
check the status with `_check_sts` and return the raw (file descriptor)
result. -/
def open_at (dirfd : Nat) (pathname : PyVal) (kwargs : List (String × Nat))
    (sys : OpenAt2Call → Int) (errno : Nat) :
    List OpenAt2Call × Except PyErr Int :=
  match openAtKwloop {} kwargs with
  | .error e => ([], .error e)
  | .ok how =>
    match _get_path pathname "pathname" with
    | .error e => ([], .error e)
    | .ok c_pathname =>
      let call : OpenAt2Call := ⟨dirfd, c_pathname, how⟩
      let res := sys call
      if res < 0 then ([call], .error (.osError errno))
      else ([call], .ok res)

/-- `def_syscall` (src/linuxfs.py lines 46-63): returns a closure that
invokes the generic `syscall(2)` trampoline with the syscall code prepended
to the caller's arguments, and hands back the trampoline's raw result. -/
def def_syscall (name : String) (code : Int) (tramp : List Int → Int) :
    List Int → Int :=
  fun args =>
    let _ := name
    tramp (code :: args)

/-- `AT_FDCWD` (src/linuxfs.py line 34). -/
def AT_FDCWD : Int := -100

/-- `AT_SYMLINK_FOLLOW` (src/linuxfs.py line 36). -/
def AT_SYMLINK_FOLLOW : Nat := 0x400

/-- One issued `linkat(2)` call, in the argument order of the libc entry
point: `linkat(olddirfd, oldpath, newdirfd, newpath, flags)`. -/
structure LinkatCall where
  olddirfd : Int
  oldpath : List Nat
  newdirfd : Int
  newpath : List Nat
  flags : Nat
deriving DecidableEq, Repr

/-- Number of required positional parameters of `_get_path` as defined
(src/linuxfs.py line 295: `def _get_path(pathname, argname)`). -/
def get_path_requiredParams : Nat := 2

/-- Number of arguments supplied to `_get_path` at the call site inside
`save_tmpfile` (src/linuxfs.py line 410: `_get_path(path)`). -/
def save_tmpfile_get_path_argCount : Nat := 1

/-- The global names the module defines (its top-level bindings and
imports).  Note `_get_file`, which `save_tmpfile` refers to at line 411,
is not among them — only `_get_fileno` is defined. -/
def moduleGlobals : List String :=
  ["os", "enum", "ct", "atexit", "make_funcptr", "libc", "AT_FDCWD",
   "AT_EMPTY_PATH", "AT_SYMLINK_FOLLOW", "SYS", "def_syscall", "OPENAT2",
   "openat2", "_IOC", "FS", "_get_fileno", "_get_path", "_check_sts",
   "getflags", "setflags", "getfsxattr", "setfsxattr", "open_at",
   "save_tmpfile"]

/-- `save_tmpfile` (src/linuxfs.py lines 405-413), translated statement by
statement with Python call semantics.  Line 410 calls `_get_path(path)`
with one argument although `_get_path` requires two, so Python raises
`TypeError` there; were that call fixed, line 411 would still fail with
`NameError` because `_get_file` is not a defined name (the module defines
`_get_fileno`).  The remainder is the intended magic-symlink `linkat`. -/
def save_tmpfile (fd : Nat) (path : PyVal) (sys : LinkatCall → Int) (errno : Nat) :
    List LinkatCall × Except PyErr Unit :=
  if save_tmpfile_get_path_argCount < get_path_requiredParams then
    ([], .error (.typeError
      "_get_path missing 1 required positional argument: argname"))
  else
    match _get_path path "path" with
    | .error e => ([], .error e)
    | .ok c_path =>
      if "_get_file" ∈ moduleGlobals then
        let tmpfile_path := utf8 ("/proc/self/fd/" ++ toString fd)
        let call : LinkatCall := ⟨AT_FDCWD, tmpfile_path, AT_FDCWD, c_path, AT_SYMLINK_FOLLOW⟩
        if sys call < 0 then ([call], .error (.osError errno))
        else ([call], .ok ())
      else ([], .error (.nameError "_get_file"))

/-! ## Helper lemmas -/

/-- If some keyword name in the list is outside `open_how`'s field names,
the `open_at` keyword loop raises a `TypeError`. -/
theorem openAtKwloop_invalid (f : String) :
    ∀ (kwargs : List (String × Nat)) (h : OPENAT2.open_how),
    f ∈ kwargs.map Prod.fst → f ∉ OPENAT2.open_how_fields →
    ∃ m, openAtKwloop h kwargs = .error (.typeError m) := by
  intro kwargs
  induction kwargs with
  | nil => intro h hf _; simp at hf
  | cons p rest ih =>
    intro h hf hinv
    obtain ⟨g, v⟩ := p
    simp only [List.map_cons, List.mem_cons] at hf
    unfold openAtKwloop
    by_cases hg : g ∈ OPENAT2.open_how_fields
    · rw [if_pos hg]
      rcases hf with hf | hf
      · exact absurd (hf ▸ hg) hinv
      · exact ih _ hf hinv
    · rw [if_neg hg]
      exact ⟨_, rfl⟩

/-- If some keyword name in the list is outside the settable `fsx_` field
names, the `setfsxattr` keyword loop raises a `TypeError`. -/
theorem setfsxattrKwloop_invalid (f : String) :
    ∀ (kwargs : List (String × Nat)) (x : Xattr),
    f ∈ kwargs.map Prod.fst → f ∉ setfsxattrValid →
    ∃ m, setfsxattrKwloop x kwargs = .error (.typeError m) := by
  intro kwargs
  induction kwargs with
  | nil => intro x hf _; simp at hf
  | cons p rest ih =>
    intro x hf hinv
    obtain ⟨g, v⟩ := p
    simp only [List.map_cons, List.mem_cons] at hf
    unfold setfsxattrKwloop
    by_cases hg : g ∈ setfsxattrValid
    · rw [if_pos hg]
      rcases hf with hf | hf
      · exact absurd (hf ▸ hg) hinv
      · exact ih _ hf hinv
    · rw [if_neg hg]
      exact ⟨_, rfl⟩

/-- A call to `setfsxattr` whose keyword list contains a name outside the
settable field set raises a `TypeError` and issues no ioctl, whatever the
positional arguments are. -/
theorem setfsxattr_invalid_kw (fd : Nat) (args : List XattrArg)
    (kwargs : List (String × Nat)) (sys : Nat → Xattr → Int) (errno : Nat)
    (g : String) (hg : g ∈ kwargs.map Prod.fst) (hinv : g ∉ setfsxattrValid) :
    (setfsxattr fd args kwargs sys errno).1 = [] ∧
    isTypeError (setfsxattr fd args kwargs sys errno).2 := by
  have hkne : kwargs ≠ [] := by
    intro h
    subst h
    simp at hg
  have hklen : kwargs.length ≠ 0 := fun h => hkne (List.length_eq_zero.mp h)
  unfold setfsxattr
  rw [if_neg (by omega)]
  by_cases h1 : args.length > 1
  · rw [if_pos h1]
    exact ⟨rfl, trivial⟩
  · rw [if_neg h1]
    cases args with
    | nil =>
      dsimp only
      rw [if_neg (by simp [hklen])]
      obtain ⟨m, hm⟩ := setfsxattrKwloop_invalid g kwargs {} hg hinv
      rw [hm]
      exact ⟨rfl, trivial⟩
    | cons a rest =>
      cases a with
      | xattr x =>
        dsimp only
        rw [if_pos (by simp [hklen])]
        exact ⟨rfl, trivial⟩
      | other =>
        dsimp only
        exact ⟨rfl, trivial⟩

/-- Either the `open_at` keyword loop accepts all keywords, or it raises a
`TypeError`. -/
theorem openAtKwloop_ok_or_typeError :
    ∀ (kwargs : List (String × Nat)) (h : OPENAT2.open_how),
    (∃ how, openAtKwloop h kwargs = .ok how) ∨
    (∃ m, openAtKwloop h kwargs = .error (.typeError m)) := by
  intro kwargs
  induction kwargs with
  | nil => intro h; exact .inl ⟨h, rfl⟩
  | cons p rest ih =>
    intro h
    obtain ⟨g, v⟩ := p
    unfold openAtKwloop
    by_cases hg : g ∈ OPENAT2.open_how_fields
    · rw [if_pos hg]
      exact ih _
    · rw [if_neg hg]
      exact .inr ⟨_, rfl⟩

/-! ## Claim theorems -/

/-- C3: for every fd, calling `setfsxattr` with both a positional
`FS.xattr` base value and at least one named field override raises
`TypeError`, and calling it with no positional argument and no keyword
arguments also raises `TypeError`; in both cases no ioctl syscall is
issued (the issued-call list is empty). -/
theorem setfsxattr_base_xor_fields (fd : Nat) (x : Xattr)
    (kwargs : List (String × Nat)) (sys : Nat → Xattr → Int) (errno : Nat)
    (hk : kwargs ≠ []) :
    setfsxattr fd [.xattr x] kwargs sys errno =
      ([], .error (.typeError
        "either pass a positional FS.xattr argument, or individual field values by keyword")) ∧
    setfsxattr fd [] [] sys errno =
      ([], .error (.typeError "nothing to do")) := by
  have hklen : kwargs.length ≠ 0 := fun h => hk (List.length_eq_zero.mp h)
  constructor
  · unfold setfsxattr
    rw [if_neg (by simp)]
    rw [if_neg (by simp)]
    dsimp only
    rw [if_pos (by simp [hklen])]
  · rfl

/-- Witness for C3 with `kwargs = [fsx_projid := 5]`. -/
theorem setfsxattr_base_xor_fields_witness :
    (([("fsx_projid", 5)] : List (String × Nat)) ≠ []) ∧
    (setfsxattr 3 [.xattr {}] [("fsx_projid", 5)] (fun _ _ => 0) 0 =
      ([], .error (.typeError
        "either pass a positional FS.xattr argument, or individual field values by keyword")) ∧
     setfsxattr 3 [] [] (fun _ _ => 0) 0 =
      ([], .error (.typeError "nothing to do"))) :=
  ⟨by decide,
   setfsxattr_base_xor_fields 3 {} [("fsx_projid", 5)] (fun _ _ => 0) 0 (by decide)⟩

/-- C4 (code bug): the canonical read-modify-write call
`setfsxattr(fd, getfsxattr(fd), fsx_projid = N)` — a positional base plus a
named override, the very idiom the function's own docstring prescribes — is
rejected by the argument check at src/linuxfs.py line 362: it raises
`TypeError` and issues no ioctl, instead of writing back the base with only
the project id changed. -/
theorem setfsxattr_readModifyWrite_rejected :
    setfsxattr 3
      [.xattr { fsx_xflags := 2048, fsx_extsize := 4096, fsx_nextents := 7,
                fsx_projid := 1, fsx_cowextsize := 0 }]
      [("fsx_projid", 42)] (fun _ _ => 0) 17 =
      ([], .error (.typeError
        "either pass a positional FS.xattr argument, or individual field values by keyword")) := by
  decide

/-- C5: for every keyword name that is not a recognized field, `open_at`
(recognized: flags, mode, resolve) and `setfsxattr` (recognized: the
non-pad `fsx_` fields) raise `TypeError` before issuing any syscall, so no
kernel side effect occurs for such calls. -/
theorem unknown_keyword_rejected
    (dirfd : Nat) (pathname : PyVal) (okwargs : List (String × Nat))
    (osys : OpenAt2Call → Int) (oerrno : Nat) (f : String)
    (hf : f ∈ okwargs.map Prod.fst) (hfv : f ∉ OPENAT2.open_how_fields)
    (fd : Nat) (args : List XattrArg) (skwargs : List (String × Nat))
    (ssys : Nat → Xattr → Int) (serrno : Nat) (g : String)
    (hg : g ∈ skwargs.map Prod.fst) (hgv : g ∉ setfsxattrValid) :
    ((open_at dirfd pathname okwargs osys oerrno).1 = [] ∧
     isTypeError (open_at dirfd pathname okwargs osys oerrno).2) ∧
    ((setfsxattr fd args skwargs ssys serrno).1 = [] ∧
     isTypeError (setfsxattr fd args skwargs ssys serrno).2) := by
  constructor
  · obtain ⟨m, hm⟩ := openAtKwloop_invalid f okwargs {} hf hfv
    unfold open_at
    rw [hm]
    exact ⟨rfl, trivial⟩
  · exact setfsxattr_invalid_kw fd args skwargs ssys serrno g hg hgv

/-- Witness for C5 with the unknown keywords `bogus` and `fsx_bogus`. -/
theorem unknown_keyword_rejected_witness :
    ("bogus" ∈ ([("bogus", 1)] : List (String × Nat)).map Prod.fst) ∧
    ("bogus" ∉ OPENAT2.open_how_fields) ∧
    ("fsx_bogus" ∈ ([("fsx_bogus", 1)] : List (String × Nat)).map Prod.fst) ∧
    ("fsx_bogus" ∉ setfsxattrValid) ∧
    (((open_at 4 (.bytes [97]) [("bogus", 1)] (fun _ => 0) 0).1 = [] ∧
      isTypeError (open_at 4 (.bytes [97]) [("bogus", 1)] (fun _ => 0) 0).2) ∧
     ((setfsxattr 3 [] [("fsx_bogus", 1)] (fun _ _ => 0) 0).1 = [] ∧
      isTypeError (setfsxattr 3 [] [("fsx_bogus", 1)] (fun _ _ => 0) 0).2)) :=
  ⟨by decide, by decide, by decide, by decide,
   unknown_keyword_rejected 4 (.bytes [97]) [("bogus", 1)] (fun _ => 0) 0 "bogus"
     (by decide) (by decide) 3 [] [("fsx_bogus", 1)] (fun _ _ => 0) 0 "fsx_bogus"
     (by decide) (by decide)⟩

/-- C6: with well-formed options and pathname, `open_at` issues exactly one
`openat2` syscall; a non-negative syscall result is returned unchanged as
the new file descriptor, and a negative result raises `OSError` carrying
the OS errno unmodified. -/
theorem open_at_result (dirfd : Nat) (pathname : PyVal)
    (kwargs : List (String × Nat)) (sys : OpenAt2Call → Int) (errno : Nat)
    (how : OPENAT2.open_how) (cp : List Nat)
    (hk : openAtKwloop {} kwargs = .ok how)
    (hp : _get_path pathname "pathname" = .ok cp) :
    (0 ≤ sys ⟨dirfd, cp, how⟩ →
      open_at dirfd pathname kwargs sys errno =
        ([⟨dirfd, cp, how⟩], .ok (sys ⟨dirfd, cp, how⟩))) ∧
    (sys ⟨dirfd, cp, how⟩ < 0 →
      open_at dirfd pathname kwargs sys errno =
        ([⟨dirfd, cp, how⟩], .error (.osError errno))) := by
  unfold open_at
  rw [hk, hp]
  constructor
  · intro h
    dsimp only
    rw [if_neg (by omega)]
  · intro h
    dsimp only
    rw [if_pos h]

/-- Witness for C6: `flags = 577`, pathname `b"/x"`, a kernel returning
fd 5, and errno 9 left untouched. -/
theorem open_at_result_witness :
    (openAtKwloop {} ([("flags", 577)] : List (String × Nat)) =
      .ok ({ flags := 577 } : OPENAT2.open_how)) ∧
    (_get_path (.bytes [47, 120]) "pathname" = .ok [47, 120]) ∧
    ((0 ≤ (5 : Int) →
      open_at 7 (.bytes [47, 120]) [("flags", 577)] (fun _ => 5) 9 =
        ([⟨7, [47, 120], { flags := 577 }⟩], .ok 5)) ∧
     ((5 : Int) < 0 →
      open_at 7 (.bytes [47, 120]) [("flags", 577)] (fun _ => 5) 9 =
        ([⟨7, [47, 120], { flags := 577 }⟩], .error (.osError 9)))) :=
  ⟨by decide, by decide,
   open_at_result 7 (.bytes [47, 120]) [("flags", 577)] (fun _ => 5) 9
     { flags := 577 } [47, 120] (by decide) (by decide)⟩

/-- C7 (code bug): `save_tmpfile` never reaches `linkat`.  Its first
statement calls `_get_path(path)` with one argument although `_get_path`
requires two (`pathname`, `argname`), so every call raises `TypeError`
with no syscall issued; were that fixed, the next statement would raise
`NameError` on the undefined `_get_file`. -/
theorem save_tmpfile_never_links (fd : Nat) (path : PyVal)
    (sys : LinkatCall → Int) (errno : Nat) :
    save_tmpfile fd path sys errno =
      ([], .error (.typeError
        "_get_path missing 1 required positional argument: argname")) := by
  unfold save_tmpfile
  rw [if_pos (by decide)]

/-- C8: a binding produced by `def_syscall` returns the raw result of the
generic syscall trampoline applied to the syscall code prepended to the
caller's arguments — negative results included, with no error translation
(the binding's result type is the trampoline's raw integer, never an
exception). -/
theorem def_syscall_returns_raw (nm : String) (code : Int)
    (tramp : List Int → Int) (args : List Int) :
    def_syscall nm code tramp args = tramp (code :: args) := rfl

/-- C9 counterexample: publishing with a perfectly valid `str` destination
path and an always-succeeding kernel raises `TypeError`, and the UTF-8
encoding of the path never reaches any `linkat` call. -/
theorem save_tmpfile_str_counterexample :
    isTypeError (save_tmpfile 3 (.str "/tmp/x") (fun _ => 0) 0).2 ∧
    ¬ ((save_tmpfile 3 (.str "/tmp/x") (fun _ => 0) 0).1.map
        (fun c => c.newpath) = [utf8 "/tmp/x"]) := by
  decide

/-- C9 amended: `_get_path` encodes a `str` to its UTF-8 bytes, passes
`bytes`/`bytearray` through unchanged, and raises `TypeError` on any other
type; `open_at` applies it before its syscall, so a mistyped pathname
raises `TypeError` with no syscall issued; but in `save_tmpfile` the
malformed `_get_path(path)` call makes every call raise `TypeError` before
any syscall, so no pathname of any type is ever encoded and passed there. -/
theorem path_encoding (a : String) :
    (∀ s, _get_path (.str s) a = .ok (utf8 s)) ∧
    (∀ b, _get_path (.bytes b) a = .ok b) ∧
    (∀ b, _get_path (.bytearray b) a = .ok b) ∧
    isTypeError (_get_path .other a) ∧
    (∀ (dirfd : Nat) (kwargs : List (String × Nat)) (sys : OpenAt2Call → Int)
       (errno : Nat),
      (open_at dirfd .other kwargs sys errno).1 = [] ∧
      isTypeError (open_at dirfd .other kwargs sys errno).2) ∧
    (∀ (fd : Nat) (path : PyVal) (sys : LinkatCall → Int) (errno : Nat),
      (save_tmpfile fd path sys errno).1 = [] ∧
      isTypeError (save_tmpfile fd path sys errno).2) := by
  refine ⟨fun s => rfl, fun b => rfl, fun b => rfl, trivial, ?_, ?_⟩
  · intro dirfd kwargs sys errno
    rcases openAtKwloop_ok_or_typeError kwargs {} with ⟨how, hh⟩ | ⟨m, hm⟩
    · unfold open_at
      rw [hh]
      exact ⟨rfl, trivial⟩
    · unfold open_at
      rw [hm]
      exact ⟨rfl, trivial⟩
  · intro fd path sys errno
    unfold save_tmpfile
    rw [if_pos (by decide)]
    exact ⟨rfl, trivial⟩

/-- C10: `fsx_pad` is a genuine field of the `FS.xattr` structure but is
deliberately excluded from the caller-settable names, so any `setfsxattr`
call naming it raises `TypeError` before any ioctl: the pad bytes can never
be set through the public interface. -/
theorem setfsxattr_pad_excluded (fd : Nat) (args : List XattrArg)
    (kwargs : List (String × Nat)) (sys : Nat → Xattr → Int) (errno : Nat)
    (hpad : "fsx_pad" ∈ kwargs.map Prod.fst) :
    "fsx_pad" ∈ xattrFieldNames ∧
    "fsx_pad" ∉ setfsxattrValid ∧
    ((setfsxattr fd args kwargs sys errno).1 = [] ∧
     isTypeError (setfsxattr fd args kwargs sys errno).2) := by
  refine ⟨by decide, by decide, ?_⟩
  exact setfsxattr_invalid_kw fd args kwargs sys errno "fsx_pad" hpad (by decide)

/-- Witness for C10 with `kwargs = [fsx_pad := 0]`. -/
theorem setfsxattr_pad_excluded_witness :
    ("fsx_pad" ∈ ([("fsx_pad", 0)] : List (String × Nat)).map Prod.fst) ∧
    ("fsx_pad" ∈ xattrFieldNames ∧ "fsx_pad" ∉ setfsxattrValid ∧
     ((setfsxattr 3 [] [("fsx_pad", 0)] (fun _ _ => 0) 0).1 = [] ∧
      isTypeError (setfsxattr 3 [] [("fsx_pad", 0)] (fun _ _ => 0) 0).2)) :=
  ⟨by decide,
   setfsxattr_pad_excluded 3 [] [("fsx_pad", 0)] (fun _ _ => 0) 0 (by decide)⟩
